import Mathlib

/-!
Shallow embedding of `src/render/src/pso/target.rs` (gfx render-target PSO
components) together with the pieces of `gfx_core` they touch: the reflected
shader output variables, the raw resource set mutated by `bind_to`, and the
handle manager.  Pure Rust functions become Lean functions; `&mut self` and
`&mut RawDataSet` mutation becomes explicit state passing, so every `link_*`
returns the updated component paired with its result and every `bind_to`
returns the updated raw set paired with the updated manager.
-/

namespace GfxPso

/-- Reflected shader output variable (`gfx_core::shade::OutputVar`):
a name and a color slot index. An empty name is the wildcard. -/
structure OutputVar where
  name : String
  slot : Nat
deriving DecidableEq, Repr

/-- Runtime pixel format (`gfx_core::format::Format`), a pair of a surface
type and a channel type; modelled as abstract codes. -/
abbrev Format := Nat × Nat

/-- Color write mask (`gfx_core::state::ColorMask`), a 4-bit channel set. -/
abbrev ColorMask := Nat

/-- The write-all-channels mask `state::MASK_ALL` (all four channel bits). -/
def MASK_ALL : ColorMask := 15

/-- Blend equation for one channel (`gfx_core::state::BlendChannel`),
kept abstract. -/
abbrev BlendChannel := Nat

/-- Blending state (`gfx_core::state::Blend`): separate color and alpha
channel equations. -/
structure Blend where
  color : BlendChannel
  alpha : BlendChannel
deriving DecidableEq, Repr

/-- Per-target color output info (`gfx_core::pso::ColorInfo`): write mask and
optional separate color/alpha blend equations. -/
structure ColorInfo where
  mask : ColorMask
  color : Option BlendChannel
  alpha : Option BlendChannel
deriving DecidableEq, Repr

/-- Modelled from the spec: `gfx_core`'s conversion of a color mask into a
`ColorInfo` (the `MASK_ALL.into()` in `RenderTarget::link_output`, code not
under src/) — the given mask with no blending equations. -/
def colorInfoOfMask (m : ColorMask) : ColorInfo :=
  { mask := m, color := none, alpha := none }

/-- Color target descriptor (`gfx_core::pso::ColorTargetDesc`):
format paired with the color info. -/
abbrev ColorTargetDesc := Format × ColorInfo

/-- Depth state (`gfx_core::state::Depth`), abstract payload. -/
abbrev Depth := Nat

/-- Stencil state (`gfx_core::state::Stencil`), abstract payload. -/
abbrev Stencil := Nat

/-- Depth/stencil fixed-function info (`gfx_core::pso::DepthStencilInfo`),
abstract payload. -/
abbrev DepthStencilInfo := Nat

/-- Modelled from the spec: `gfx_core`'s `From<state::Depth>` conversion into
`DepthStencilInfo` (code not under src/). -/
def depthInto (d : Depth) : DepthStencilInfo := d

/-- Modelled from the spec: `gfx_core`'s `From<state::Stencil>` conversion
into `DepthStencilInfo` (code not under src/). -/
def stencilInto (s : Stencil) : DepthStencilInfo := s

/-- Modelled from the spec: `gfx_core`'s `From<(state::Depth, state::Stencil)>`
conversion into `DepthStencilInfo` (code not under src/). -/
def depthStencilInto (ds : Depth × Stencil) : DepthStencilInfo := ds.1 + ds.2

/-- Surface type component of a format (`Format.0` in the Rust source). -/
abbrev SurfaceType := Nat

/-- Depth/stencil descriptor (`gfx_core::pso::DepthStencilDesc`):
surface type paired with the fixed-function info. -/
abbrev DepthStencilDesc := SurfaceType × DepthStencilInfo

/-- Resource dimensions as reported by `get_dimensions` on a raw view. -/
abbrev Dim := Nat × Nat

/-- Opaque resource reference produced by the handle manager. -/
abbrev Ref := Nat

/-- Raw (type-erased) resource view: an identity plus its dimensions
(`raw()` / `get_dimensions()` in the Rust source). -/
structure RawView where
  id : Nat
  dim : Dim
deriving DecidableEq, Repr

/-- Typed render target view (`handle::RenderTargetView<R, T>`); `raw` is the
type-erased view behind it. -/
structure RenderTargetView where
  raw : RawView
deriving DecidableEq, Repr

/-- Typed depth-stencil view (`handle::DepthStencilView<R, T>`). -/
structure DepthStencilView where
  raw : RawView
deriving DecidableEq, Repr

/-- Handle manager (`gfx_core::handle::Manager`): the sets of raw views
registered so far, one per view kind used here. -/
structure Manager where
  rtvs : List Nat
  dsvs : List Nat
deriving DecidableEq, Repr

/-- Modelled from the spec: the handle manager's `ref_rtv` (gfx_core, not
under src/) — registers the render-target view, deduplicating, and returns an
opaque reference that is a pure function of the view. -/
def Manager.ref_rtv (m : Manager) (v : RawView) : Ref × Manager :=
  (v.id, { m with rtvs := if m.rtvs.contains v.id then m.rtvs else v.id :: m.rtvs })

/-- Modelled from the spec: the handle manager's `ref_dsv` (gfx_core, not
under src/) — registers the depth-stencil view, deduplicating, and returns an
opaque reference that is a pure function of the view. -/
def Manager.ref_dsv (m : Manager) (v : RawView) : Ref × Manager :=
  (v.id, { m with dsvs := if m.dsvs.contains v.id then m.dsvs else v.id :: m.dsvs })

/-- Pixel target set of the raw data set (`gfx_core::pso::PixelTargetSet`):
the color-slot mapping and the optional depth/stencil entry
`(reference, use-depth, use-stencil, dimensions)`. -/
structure PixelTargetSet where
  colors : List (Nat × (Ref × Dim))
  depth_stencil : Option (Ref × Bool × Bool × Dim)
deriving DecidableEq, Repr

/-- Modelled from the spec: `PixelTargetSet::add_color` (gfx_core, not under
src/) — overwrites the color mapping at the given slot with the reference and
dimensions, pure overwrite semantics. -/
def PixelTargetSet.add_color (p : PixelTargetSet) (slot : Nat) (r : Ref) (d : Dim) :
    PixelTargetSet :=
  { p with colors := (slot, (r, d)) :: p.colors.filter (fun e => e.1 != slot) }

/-- Modelled from the spec: `PixelTargetSet::add_depth_stencil` (gfx_core, not
under src/) — overwrites the single depth/stencil entry with the reference,
the two usage flags and the dimensions. -/
def PixelTargetSet.add_depth_stencil (p : PixelTargetSet) (r : Ref)
    (hasDepth hasStencil : Bool) (d : Dim) : PixelTargetSet :=
  { p with depth_stencil := some (r, hasDepth, hasStencil, d) }

/-- Scissor rectangle (`gfx_core::target::Rect`). -/
abbrev Rect := Nat × Nat × Nat × Nat

/-- Blend reference color (`gfx_core::target::ColorValue`), four channel
values kept as abstract codes. -/
abbrev ColorValue := Nat × Nat × Nat × Nat

/-- Reference values of the raw data set (`gfx_core::pso::RefValues`):
blend reference color and the stencil `(front, back)` reference pair. -/
structure RefValues where
  blend : ColorValue
  stencil : Nat × Nat
deriving DecidableEq, Repr

/-- Raw resource set (`RawDataSet` from `render::pso`): color/depth-stencil
targets, scissor rectangle and reference values. -/
structure RawDataSet where
  pixel_targets : PixelTargetSet
  scissor : Rect
  ref_values : RefValues
deriving DecidableEq, Repr

/-- Render target component (`RenderTarget<T>` in target.rs): an optional
resolved color slot. The format phantom parameter `T` is represented by
passing `T::get_format()` explicitly to `link_output`. -/
structure RenderTarget where
  slot : Option Nat
deriving DecidableEq, Repr

/-- Constructor `DataLink::new` for `RenderTarget` (target.rs line 56). -/
def RenderTarget.new : RenderTarget := ⟨none⟩

/-- Activity query `DataLink::is_active` for `RenderTarget`
(target.rs line 59): the slot is resolved. -/
def RenderTarget.is_active (c : RenderTarget) : Bool := c.slot.isSome

/-- Linking `RenderTarget::link_output` (target.rs lines 62-71): if the
reflected name is empty or equals the declared name, record the reflected
slot and return `(T::get_format(), MASK_ALL.into())`; otherwise no result.
Returns the updated component paired with the optional result. -/
def RenderTarget.link_output (fmt : Format) (c : RenderTarget) (out : OutputVar)
    (init : String) : RenderTarget × Option (Except Format ColorTargetDesc) :=
  if out.name.isEmpty || out.name == init then
    (⟨some out.slot⟩, some (Except.ok (fmt, colorInfoOfMask MASK_ALL)))
  else
    (c, none)

/-- Binding `RenderTarget::bind_to` (target.rs lines 76-80): only when the
slot is resolved, register the view and overwrite the color mapping at that
slot with the reference and the view's dimensions. -/
def RenderTarget.bind_to (c : RenderTarget) (out : RawDataSet)
    (data : RenderTargetView) (man : Manager) : RawDataSet × Manager :=
  match c.slot with
  | some slot =>
      let rm := man.ref_rtv data.raw
      ({ out with pixel_targets := out.pixel_targets.add_color slot rm.1 data.raw.dim },
       rm.2)
  | none => (out, man)

/-- Blended render target component (`BlendTarget<T>` in target.rs). -/
structure BlendTarget where
  slot : Option Nat
deriving DecidableEq, Repr

/-- Constructor `DataLink::new` for `BlendTarget` (target.rs line 86). -/
def BlendTarget.new : BlendTarget := ⟨none⟩

/-- Activity query `DataLink::is_active` for `BlendTarget`
(target.rs line 89). -/
def BlendTarget.is_active (c : BlendTarget) : Bool := c.slot.isSome

/-- Linking `BlendTarget::link_output` (target.rs lines 92-105): same match
rule as the plain target; the descriptor carries the caller-supplied mask and
the blend state's color/alpha equations. -/
def BlendTarget.link_output (fmt : Format) (c : BlendTarget) (out : OutputVar)
    (init : String × ColorMask × Blend) :
    BlendTarget × Option (Except Format ColorTargetDesc) :=
  if out.name.isEmpty || out.name == init.1 then
    (⟨some out.slot⟩,
     some (Except.ok (fmt,
       { mask := init.2.1, color := some init.2.2.color, alpha := some init.2.2.alpha })))
  else
    (c, none)

/-- Binding `BlendTarget::bind_to` (target.rs lines 110-114), identical in
shape to the plain render target's bind. -/
def BlendTarget.bind_to (c : BlendTarget) (out : RawDataSet)
    (data : RenderTargetView) (man : Manager) : RawDataSet × Manager :=
  match c.slot with
  | some slot =>
      let rm := man.ref_rtv data.raw
      ({ out with pixel_targets := out.pixel_targets.add_color slot rm.1 data.raw.dim },
       rm.2)
  | none => (out, man)

/-- Depth target component (`DepthTarget<T>` in target.rs): no runtime state
beyond the phantom format tag. -/
structure DepthTarget where
deriving DecidableEq, Repr

/-- Constructor `DataLink::new` for `DepthTarget` (target.rs line 120). -/
def DepthTarget.new : DepthTarget := ⟨⟩

/-- Activity query for `DepthTarget` (target.rs line 121): always true. -/
def DepthTarget.is_active (_ : DepthTarget) : Bool := true

/-- Linking `DepthTarget::link_depth_stencil` (target.rs lines 122-124):
unconditionally returns `(T::get_format().0, init.into())`. The surface type
of the phantom format is passed explicitly. -/
def DepthTarget.link_depth_stencil (surf : SurfaceType) (c : DepthTarget)
    (init : Depth) : DepthTarget × Option DepthStencilDesc :=
  (c, some (surf, depthInto init))

/-- Binding `DepthTarget::bind_to` (target.rs lines 129-132): registers the
view and overwrites the depth/stencil entry with use-depth true and
use-stencil false. -/
def DepthTarget.bind_to (_ : DepthTarget) (out : RawDataSet)
    (data : DepthStencilView) (man : Manager) : RawDataSet × Manager :=
  let rm := man.ref_dsv data.raw
  ({ out with
      pixel_targets := out.pixel_targets.add_depth_stencil rm.1 true false data.raw.dim },
   rm.2)

/-- Stencil target component (`StencilTarget<T>` in target.rs). -/
structure StencilTarget where
deriving DecidableEq, Repr

/-- Constructor `DataLink::new` for `StencilTarget` (target.rs line 137). -/
def StencilTarget.new : StencilTarget := ⟨⟩

/-- Activity query for `StencilTarget` (target.rs line 138): always true. -/
def StencilTarget.is_active (_ : StencilTarget) : Bool := true

/-- Linking `StencilTarget::link_depth_stencil` (target.rs lines 139-141). -/
def StencilTarget.link_depth_stencil (surf : SurfaceType) (c : StencilTarget)
    (init : Stencil) : StencilTarget × Option DepthStencilDesc :=
  (c, some (surf, stencilInto init))

/-- Binding `StencilTarget::bind_to` (target.rs lines 146-150): registers the
view, overwrites the depth/stencil entry with use-depth false and use-stencil
true, and sets the stencil reference pair. -/
def StencilTarget.bind_to (_ : StencilTarget) (out : RawDataSet)
    (data : DepthStencilView × (Nat × Nat)) (man : Manager) : RawDataSet × Manager :=
  let rm := man.ref_dsv data.1.raw
  ({ out with
      pixel_targets := out.pixel_targets.add_depth_stencil rm.1 false true data.1.raw.dim,
      ref_values := { out.ref_values with stencil := data.2 } },
   rm.2)

/-- Combined depth + stencil target component (`DepthStencilTarget<T>`). -/
structure DepthStencilTarget where
deriving DecidableEq, Repr

/-- Constructor `DataLink::new` for `DepthStencilTarget`
(target.rs line 155). -/
def DepthStencilTarget.new : DepthStencilTarget := ⟨⟩

/-- Activity query for `DepthStencilTarget` (target.rs line 156):
always true. -/
def DepthStencilTarget.is_active (_ : DepthStencilTarget) : Bool := true

/-- Linking `DepthStencilTarget::link_depth_stencil`
(target.rs lines 157-159). -/
def DepthStencilTarget.link_depth_stencil (surf : SurfaceType)
    (c : DepthStencilTarget) (init : Depth × Stencil) :
    DepthStencilTarget × Option DepthStencilDesc :=
  (c, some (surf, depthStencilInto init))

/-- Binding `DepthStencilTarget::bind_to` (target.rs lines 164-168): like the
stencil target's bind but with use-depth true as well. -/
def DepthStencilTarget.bind_to (_ : DepthStencilTarget) (out : RawDataSet)
    (data : DepthStencilView × (Nat × Nat)) (man : Manager) : RawDataSet × Manager :=
  let rm := man.ref_dsv data.1.raw
  ({ out with
      pixel_targets := out.pixel_targets.add_depth_stencil rm.1 true true data.1.raw.dim,
      ref_values := { out.ref_values with stencil := data.2 } },
   rm.2)

/-- Scissor component (`Scissor` in target.rs): a single in-use flag. -/
structure Scissor where
  active : Bool
deriving DecidableEq, Repr

/-- Constructor `DataLink::new` for `Scissor` (target.rs line 174): the flag
starts false. -/
def Scissor.new : Scissor := ⟨false⟩

/-- Activity query for `Scissor` (target.rs line 175): the flag. -/
def Scissor.is_active (c : Scissor) : Bool := c.active

/-- Linking `Scissor::link_scissor` (target.rs line 176): sets the flag to
true and returns true. Returns the updated component paired with the bool. -/
def Scissor.link_scissor (_ : Scissor) : Scissor × Bool := (⟨true⟩, true)

/-- Binding `Scissor::bind_to` (target.rs lines 181-183): overwrites the raw
set's scissor rectangle with the supplied rectangle, without consulting the
active flag. -/
def Scissor.bind_to (_ : Scissor) (out : RawDataSet) (data : Rect)
    (man : Manager) : RawDataSet × Manager :=
  ({ out with scissor := data }, man)

/-- Blend reference component (`BlendRef` in target.rs): stateless. -/
structure BlendRef where
deriving DecidableEq, Repr

/-- Constructor `DataLink::new` for `BlendRef` (target.rs line 188). -/
def BlendRef.new : BlendRef := ⟨⟩

/-- Activity query for `BlendRef` (target.rs line 189): always true. -/
def BlendRef.is_active (_ : BlendRef) : Bool := true

/-- Binding `BlendRef::bind_to` (target.rs lines 194-196): overwrites the raw
set's blend reference color with the supplied value. -/
def BlendRef.bind_to (_ : BlendRef) (out : RawDataSet) (data : ColorValue)
    (man : Manager) : RawDataSet × Manager :=
  ({ out with ref_values := { out.ref_values with blend := data } }, man)

/-- Aggregator-side linking of a color target against a whole reflection
list: `link_output` is tried on each reflected variable in order, threading
the component state (the PSO macro calls `link_output` once per reflected
output). -/
def RenderTarget.link_list (fmt : Format) (c : RenderTarget)
    (outs : List OutputVar) (init : String) : RenderTarget :=
  outs.foldl (fun st o => (RenderTarget.link_output fmt st o init).1) c

/-- Aggregator-side linking of a blended color target against a whole
reflection list, analogous to `RenderTarget.link_list`. -/
def BlendTarget.link_list (fmt : Format) (c : BlendTarget)
    (outs : List OutputVar) (init : String × ColorMask × Blend) : BlendTarget :=
  outs.foldl (fun st o => (BlendTarget.link_output fmt st o init).1) c

/-- Example raw data set with all fields zeroed, for concrete instances. -/
def rawDataSet0 : RawDataSet :=
  { pixel_targets := { colors := [], depth_stencil := none },
    scissor := (0, 0, 0, 0),
    ref_values := { blend := (0, 0, 0, 0), stencil := (0, 0) } }

/-- Example empty handle manager. -/
def manager0 : Manager := { rtvs := [], dsvs := [] }

/-- Example render target view with identity 7 and 256 by 256 dimensions. -/
def rtView0 : RenderTargetView := ⟨⟨7, (256, 256)⟩⟩

/-- Overwriting the same color slot twice with the same value is the same as
doing it once. -/
theorem PixelTargetSet.add_color_add_color (p : PixelTargetSet) (slot : Nat)
    (r : Ref) (d : Dim) :
    (p.add_color slot r d).add_color slot r d = p.add_color slot r d := by
  simp [PixelTargetSet.add_color, List.filter_filter]

/-- Linking a plain color target against a reflection list in which no entry
matches (no wildcard, no equal name) leaves the component state unchanged. -/
theorem renderTarget_link_list_no_match (fmt : Format) (outs : List OutputVar)
    (n : String) :
    ∀ c : RenderTarget, (∀ o ∈ outs, (o.name.isEmpty || o.name == n) = false) →
      RenderTarget.link_list fmt c outs n = c := by
  induction outs with
  | nil => intro c _; rfl
  | cons o os ih =>
      intro c hm
      have h0 : (RenderTarget.link_output fmt c o n).1 = c := by
        simp [RenderTarget.link_output, hm o (by simp)]
      show RenderTarget.link_list fmt (RenderTarget.link_output fmt c o n).1 os n = c
      rw [h0]
      exact ih c (fun x hx => hm x (by simp [hx]))

/-- Linking a blended color target against a reflection list in which no
entry matches its declared name (no wildcard, no equal name) leaves the
component state unchanged. -/
theorem blendTarget_link_list_no_match (fmt : Format) (outs : List OutputVar)
    (init : String × ColorMask × Blend) :
    ∀ c : BlendTarget, (∀ o ∈ outs, (o.name.isEmpty || o.name == init.1) = false) →
      BlendTarget.link_list fmt c outs init = c := by
  induction outs with
  | nil => intro c _; rfl
  | cons o os ih =>
      intro c hm
      have h0 : (BlendTarget.link_output fmt c o init).1 = c := by
        simp [BlendTarget.link_output, hm o (by simp)]
      show BlendTarget.link_list fmt (BlendTarget.link_output fmt c o init).1 os init = c
      rw [h0]
      exact ih c (fun x hx => hm x (by simp [hx]))

/-- C1: for a plain color target with declared name `n`, `link_output`
matches exactly when the reflected name is empty or equals `n`; on a match it
records the reflected slot and returns the descriptor
`(format-of-T, write-all-channels-mask)`, and on no match it returns no
descriptor, leaves the state unchanged and (from a fresh component) leaves
the component inactive. -/
theorem renderTarget_link_output_contract (fmt : Format) (c : RenderTarget)
    (out : OutputVar) (n : String) :
    ((out.name.isEmpty || out.name == n) = true →
      RenderTarget.link_output fmt c out n =
        (⟨some out.slot⟩, some (Except.ok (fmt, colorInfoOfMask MASK_ALL))))
    ∧ ((out.name.isEmpty || out.name == n) = false →
      RenderTarget.link_output fmt c out n = (c, none)
      ∧ (RenderTarget.link_output fmt RenderTarget.new out n).1.is_active = false) := by
  constructor
  · intro h
    simp [RenderTarget.link_output, h]
  · intro h
    constructor
    · simp [RenderTarget.link_output, h]
    · simp [RenderTarget.link_output, h, RenderTarget.new, RenderTarget.is_active]

/-- Witness for C1 at concrete inputs: matching name records slot 2 and
yields the full-mask descriptor; a non-matching name yields no descriptor and
an inactive component. -/
theorem renderTarget_link_output_contract_witness :
    (RenderTarget.link_output (8, 3) RenderTarget.new ⟨"o_Color", 2⟩ "o_Color" =
      (⟨some 2⟩, some (Except.ok ((8, 3), colorInfoOfMask MASK_ALL))))
    ∧ (RenderTarget.link_output (8, 3) RenderTarget.new ⟨"o_Color", 2⟩ "other" =
        (RenderTarget.new, none)
      ∧ (RenderTarget.link_output (8, 3) RenderTarget.new ⟨"o_Color", 2⟩ "other").1.is_active
          = false) :=
  ⟨(renderTarget_link_output_contract (8, 3) RenderTarget.new ⟨"o_Color", 2⟩ "o_Color").1
      (by decide),
   (renderTarget_link_output_contract (8, 3) RenderTarget.new ⟨"o_Color", 2⟩ "other").2
      (by decide)⟩

/-- C2 counterexample: the scissor component straight after construction is
inactive, yet `bind_to` still overwrites the scissor rectangle (the zeroed
raw set ends up with the supplied rectangle), refuting the claim that an
inactive scissor's Bind does not overwrite. -/
theorem scissor_bind_ignores_active_flag_counterexample :
    Scissor.new.is_active = false
    ∧ rawDataSet0.scissor = (0, 0, 0, 0)
    ∧ (Scissor.new.bind_to rawDataSet0 (1, 2, 3, 4) manager0).1.scissor = (1, 2, 3, 4) := by
  decide

/-- C2 amended: `Scissor::bind_to` overwrites the raw set's scissor rectangle
with the supplied rectangle verbatim regardless of the active flag, and
touches nothing else in the raw set or the manager. -/
theorem scissor_bind_overwrites_verbatim (c : Scissor) (out : RawDataSet)
    (r : Rect) (m : Manager) :
    (c.bind_to out r m).1.scissor = r
    ∧ (c.bind_to out r m).1.pixel_targets = out.pixel_targets
    ∧ (c.bind_to out r m).1.ref_values = out.ref_values
    ∧ (c.bind_to out r m).2 = m :=
  ⟨rfl, rfl, rfl, rfl⟩

/-- C3: a plain or blended color target is active exactly when a slot has
been recorded, a fresh one is inactive, and `bind_to` on an inactive one
changes neither the raw set nor the manager. -/
theorem color_target_active_iff_slot (c : RenderTarget) (b : BlendTarget) :
    (c.is_active = true ↔ ∃ s, c.slot = some s)
    ∧ (c.is_active = false → ∀ o d m, c.bind_to o d m = (o, m))
    ∧ (b.is_active = true ↔ ∃ s, b.slot = some s)
    ∧ (b.is_active = false → ∀ o d m, b.bind_to o d m = (o, m))
    ∧ RenderTarget.new.is_active = false
    ∧ BlendTarget.new.is_active = false := by
  refine ⟨?_, ?_, ?_, ?_, rfl, rfl⟩
  · simp [RenderTarget.is_active, Option.isSome_iff_exists]
  · intro h o d m
    cases hc : c.slot with
    | none => simp [RenderTarget.bind_to, hc]
    | some s => simp [RenderTarget.is_active, hc] at h
  · simp [BlendTarget.is_active, Option.isSome_iff_exists]
  · intro h o d m
    cases hc : b.slot with
    | none => simp [BlendTarget.bind_to, hc]
    | some s => simp [BlendTarget.is_active, hc] at h

/-- Witness for C3 at concrete inputs: the fresh components are inactive and
their binds leave the zeroed raw set and empty manager unchanged. -/
theorem color_target_active_iff_slot_witness :
    RenderTarget.new.is_active = false
    ∧ RenderTarget.new.bind_to rawDataSet0 rtView0 manager0 = (rawDataSet0, manager0)
    ∧ BlendTarget.new.bind_to rawDataSet0 rtView0 manager0 = (rawDataSet0, manager0) :=
  have h := color_target_active_iff_slot RenderTarget.new BlendTarget.new
  ⟨h.2.2.2.2.1,
   h.2.1 (by decide) rawDataSet0 rtView0 manager0,
   h.2.2.2.1 (by decide) rawDataSet0 rtView0 manager0⟩

/-- C4: linking a fresh color target — plain or blended — with declared name
`n` against a reflection list with no matching entry (no wildcard and no name
equal to `n`) yields an inactive component, and `bind_to` on it leaves the
raw set's color-target mapping unchanged. -/
theorem no_match_link_then_bind_noop (fmt : Format) (outs : List OutputVar)
    (n : String) (mask : ColorMask) (bl : Blend)
    (hm : ∀ o ∈ outs, (o.name.isEmpty || o.name == n) = false)
    (out : RawDataSet) (d : RenderTargetView) (m : Manager) :
    (RenderTarget.link_list fmt RenderTarget.new outs n).is_active = false
    ∧ ((RenderTarget.link_list fmt RenderTarget.new outs n).bind_to out d m).1.pixel_targets.colors
        = out.pixel_targets.colors
    ∧ (BlendTarget.link_list fmt BlendTarget.new outs (n, mask, bl)).is_active = false
    ∧ ((BlendTarget.link_list fmt BlendTarget.new outs (n, mask, bl)).bind_to
          out d m).1.pixel_targets.colors
        = out.pixel_targets.colors := by
  rw [renderTarget_link_list_no_match fmt outs n RenderTarget.new hm]
  rw [blendTarget_link_list_no_match fmt outs (n, mask, bl) BlendTarget.new hm]
  exact ⟨rfl, rfl, rfl, rfl⟩

/-- Witness for C4 at concrete inputs: a one-entry reflection list whose name
differs from the declared one leaves both color-target variants inactive and
the color mapping of the zeroed raw set empty. -/
theorem no_match_link_then_bind_noop_witness :
    (RenderTarget.link_list (8, 3) RenderTarget.new [⟨"foo", 0⟩] "bar").is_active = false
    ∧ ((RenderTarget.link_list (8, 3) RenderTarget.new [⟨"foo", 0⟩] "bar").bind_to
          rawDataSet0 rtView0 manager0).1.pixel_targets.colors
        = rawDataSet0.pixel_targets.colors
    ∧ (BlendTarget.link_list (8, 3) BlendTarget.new [⟨"foo", 0⟩]
          ("bar", 15, ⟨4, 5⟩)).is_active = false
    ∧ ((BlendTarget.link_list (8, 3) BlendTarget.new [⟨"foo", 0⟩]
          ("bar", 15, ⟨4, 5⟩)).bind_to rawDataSet0 rtView0 manager0).1.pixel_targets.colors
        = rawDataSet0.pixel_targets.colors :=
  no_match_link_then_bind_noop (8, 3) [⟨"foo", 0⟩] "bar" 15 ⟨4, 5⟩ (by decide)
    rawDataSet0 rtView0 manager0

/-- C5: the depth, stencil, combined depth-stencil and blend-reference
components report active immediately after construction, in any state, and
after any `link_depth_stencil` call; none of these consults reflection
data. -/
theorem fixed_components_always_active (d : DepthTarget) (s : StencilTarget)
    (ds : DepthStencilTarget) (br : BlendRef) (surf : SurfaceType)
    (di : Depth) (si : Stencil) (dsi : Depth × Stencil) :
    DepthTarget.new.is_active = true
    ∧ StencilTarget.new.is_active = true
    ∧ DepthStencilTarget.new.is_active = true
    ∧ BlendRef.new.is_active = true
    ∧ (d.link_depth_stencil surf di).1.is_active = true
    ∧ (s.link_depth_stencil surf si).1.is_active = true
    ∧ (ds.link_depth_stencil surf dsi).1.is_active = true
    ∧ d.is_active = true
    ∧ s.is_active = true
    ∧ ds.is_active = true
    ∧ br.is_active = true :=
  ⟨rfl, rfl, rfl, rfl, rfl, rfl, rfl, rfl, rfl, rfl, rfl⟩

/-- C6: the scissor component is inactive after construction, and
`link_scissor` (from any state) makes it active and returns true. -/
theorem scissor_lifecycle (c : Scissor) :
    Scissor.new.is_active = false
    ∧ (c.link_scissor).1.is_active = true
    ∧ (c.link_scissor).2 = true :=
  ⟨rfl, rfl, rfl⟩

/-- C7: a stencil target's bind with data `(view, (front, back))` writes the
depth-stencil entry `(ref-of-view, use-depth false, use-stencil true,
view-dimensions)` into the raw set and sets the stencil reference pair to
`(front, back)`. -/
theorem stencil_bind_writes_entry_and_refs (c : StencilTarget)
    (out : RawDataSet) (v : DepthStencilView) (fr bk : Nat) (m : Manager) :
    (c.bind_to out (v, (fr, bk)) m).1.pixel_targets.depth_stencil
        = some ((m.ref_dsv v.raw).1, false, true, v.raw.dim)
    ∧ (c.bind_to out (v, (fr, bk)) m).1.ref_values.stencil = (fr, bk) :=
  ⟨rfl, rfl⟩

/-- C8: a depth target's bind writes the depth-stencil entry with use-depth
true and use-stencil false and leaves the reference values alone, while the
combined depth-stencil target's bind writes the entry with both flags true
and sets the stencil reference pair. -/
theorem depth_and_combined_bind_entries (d : DepthTarget)
    (ds : DepthStencilTarget) (out : RawDataSet) (v : DepthStencilView)
    (fr bk : Nat) (m : Manager) :
    (d.bind_to out v m).1.pixel_targets.depth_stencil
        = some ((m.ref_dsv v.raw).1, true, false, v.raw.dim)
    ∧ (d.bind_to out v m).1.ref_values = out.ref_values
    ∧ (ds.bind_to out (v, (fr, bk)) m).1.pixel_targets.depth_stencil
        = some ((m.ref_dsv v.raw).1, true, true, v.raw.dim)
    ∧ (ds.bind_to out (v, (fr, bk)) m).1.ref_values.stencil = (fr, bk) :=
  ⟨rfl, rfl, rfl, rfl⟩

/-- C9: for each of the seven components, binding twice in succession with
the same data (threading the raw set and the manager through the first call)
leaves the raw set exactly as after one bind: pure overwrite, no
accumulation. -/
theorem bind_idempotent :
    (∀ (c : RenderTarget) (out : RawDataSet) (d : RenderTargetView) (m : Manager),
      (c.bind_to (c.bind_to out d m).1 d (c.bind_to out d m).2).1 = (c.bind_to out d m).1)
    ∧ (∀ (c : BlendTarget) (out : RawDataSet) (d : RenderTargetView) (m : Manager),
      (c.bind_to (c.bind_to out d m).1 d (c.bind_to out d m).2).1 = (c.bind_to out d m).1)
    ∧ (∀ (c : DepthTarget) (out : RawDataSet) (v : DepthStencilView) (m : Manager),
      (c.bind_to (c.bind_to out v m).1 v (c.bind_to out v m).2).1 = (c.bind_to out v m).1)
    ∧ (∀ (c : StencilTarget) (out : RawDataSet) (d : DepthStencilView × (Nat × Nat))
        (m : Manager),
      (c.bind_to (c.bind_to out d m).1 d (c.bind_to out d m).2).1 = (c.bind_to out d m).1)
    ∧ (∀ (c : DepthStencilTarget) (out : RawDataSet) (d : DepthStencilView × (Nat × Nat))
        (m : Manager),
      (c.bind_to (c.bind_to out d m).1 d (c.bind_to out d m).2).1 = (c.bind_to out d m).1)
    ∧ (∀ (c : Scissor) (out : RawDataSet) (r : Rect) (m : Manager),
      (c.bind_to (c.bind_to out r m).1 r (c.bind_to out r m).2).1 = (c.bind_to out r m).1)
    ∧ (∀ (c : BlendRef) (out : RawDataSet) (v : ColorValue) (m : Manager),
      (c.bind_to (c.bind_to out v m).1 v (c.bind_to out v m).2).1 = (c.bind_to out v m).1) := by
  refine ⟨?_, ?_, fun _ _ _ _ => rfl, fun _ _ _ _ => rfl, fun _ _ _ _ => rfl,
    fun _ _ _ _ => rfl, fun _ _ _ _ => rfl⟩
  · intro c out d m
    cases hc : c.slot with
    | none => simp [RenderTarget.bind_to, hc]
    | some s =>
        simp [RenderTarget.bind_to, hc, Manager.ref_rtv,
          PixelTargetSet.add_color_add_color]
  · intro c out d m
    cases hc : c.slot with
    | none => simp [BlendTarget.bind_to, hc]
    | some s =>
        simp [BlendTarget.bind_to, hc, Manager.ref_rtv,
          PixelTargetSet.add_color_add_color]

/-- C10: for both color-target variants, `link_output` either returns no
descriptor or a successful one; the format-mismatch error variant of the
result type is never produced. -/
theorem link_output_never_format_error (fmt : Format) (c : RenderTarget)
    (out : OutputVar) (n : String) (b : BlendTarget)
    (bi : String × ColorMask × Blend) :
    ((RenderTarget.link_output fmt c out n).2 = none
      ∨ ∃ dsc, (RenderTarget.link_output fmt c out n).2 = some (Except.ok dsc))
    ∧ ((BlendTarget.link_output fmt b out bi).2 = none
      ∨ ∃ dsc, (BlendTarget.link_output fmt b out bi).2 = some (Except.ok dsc)) := by
  constructor
  · by_cases h : (out.name.isEmpty || out.name == n) = true
    · exact Or.inr ⟨(fmt, colorInfoOfMask MASK_ALL), by simp [RenderTarget.link_output, h]⟩
    · exact Or.inl (by simp [RenderTarget.link_output, h])
  · by_cases h : (out.name.isEmpty || out.name == bi.1) = true
    · exact Or.inr ⟨(fmt,
        { mask := bi.2.1, color := some bi.2.2.color, alpha := some bi.2.2.alpha }),
        by simp [BlendTarget.link_output, h]⟩
    · exact Or.inl (by simp [BlendTarget.link_output, h])

end GfxPso
